import Mathlib

/-!
Verification of the connection and command-exchange engine of a
command-and-response bridge (a Python MCP server forwarding commands to a
Godot editor over a websocket).  The Python source is shallowly embedded:
JSON-serializable Python values become the inductive `PyVal`, Python
exceptions become `Except String` (the carried string is what `str(e)`
interpolates into the error message), and the outcome of each interaction
with the host is an explicit parameter (`HostOutcome`, attempt oracles,
receive-event streams).

Note on literals: the source file's message strings contain mojibake glyph
sequences (a cross-mark emoji that survived an encoding round trip as the
two characters U+00E2 U+0152, and similar sequences for the warning and
check marks).  The embedding reproduces those exact code points via
`\u` escapes in `xMark`, `warnMark` and `checkMark`.
-/

/-- JSON-serializable Python values, as produced by `json.loads` and consumed
by `json.dumps` in the source. -/
inductive PyVal where
  | none : PyVal
  | bool : Bool → PyVal
  | int : Int → PyVal
  | str : String → PyVal
  | list : List PyVal → PyVal
  | dict : List (String × PyVal) → PyVal

/-- Lookup in a Python dict (first binding wins, as dict keys are unique). -/
def pyDictGet (d : List (String × PyVal)) (k : String) : Option PyVal :=
  (d.find? (fun p => p.1 == k)).map (fun p => p.2)

/-- Python `v == s` for a string literal `s`: true only when `v` is an equal
string (Python never equates a non-str JSON value with a str). -/
def pyEqStr (v : PyVal) (s : String) : Bool :=
  match v with
  | .str u => u == s
  | _ => false

/-- Python type name of a value, as it appears in exception messages. -/
def pyTypeName : PyVal → String
  | .none => "NoneType"
  | .bool _ => "bool"
  | .int _ => "int"
  | .str _ => "str"
  | .list _ => "list"
  | .dict _ => "dict"

mutual

/-- Python `repr` of a JSON value (used when non-string values are
interpolated into f-strings through `str`, and for container elements). -/
def pyRepr : PyVal → String
  | .none => "None"
  | .bool true => "True"
  | .bool false => "False"
  | .int n => toString n
  | .str s => "\x27" ++ s ++ "\x27"
  | .list xs => "[" ++ pyReprItems xs ++ "]"
  | .dict ps => "\x7b" ++ pyReprPairs ps ++ "\x7d"

/-- Comma-separated reprs of list elements. -/
def pyReprItems : List PyVal → String
  | [] => ""
  | [x] => pyRepr x
  | x :: y :: xs => pyRepr x ++ ", " ++ pyReprItems (y :: xs)

/-- Comma-separated reprs of dict entries. -/
def pyReprPairs : List (String × PyVal) → String
  | [] => ""
  | [(k, v)] => "\x27" ++ k ++ "\x27: " ++ pyRepr v
  | (k, v) :: p :: ps => "\x27" ++ k ++ "\x27: " ++ pyRepr v ++ ", " ++ pyReprPairs (p :: ps)

end

/-- Python `str(v)`, the conversion every f-string applies. -/
def pyStr : PyVal → String
  | .str s => s
  | v => pyRepr v

/-- Python `v.get(k, dflt)`: succeeds on a dict, raises `AttributeError` on
anything else (modelled as the exception message `str(e)` would yield). -/
def pyGetAttrD (v : PyVal) (k : String) (dflt : PyVal) : Except String PyVal :=
  match v with
  | .dict d => .ok ((pyDictGet d k).getD dflt)
  | _ => .error ("\x27" ++ pyTypeName v ++ "\x27 object has no attribute \x27get\x27")

/-- Python `len(v)`: defined on lists, strings and dicts, raises `TypeError`
otherwise. -/
def pyLenE (v : PyVal) : Except String Int :=
  match v with
  | .list xs => .ok xs.length
  | .str s => .ok s.length
  | .dict d => .ok d.length
  | _ => .error ("object of type \x27" ++ pyTypeName v ++ "\x27 has no len()")

/-- The mangled cross-mark glyph pair that prefixes every error message in
the source (the bytes of U+274C after a cp1252 round trip). -/
def xMark : String := "\u00e2\u0152"

/-- The mangled warning glyph sequence used by `check_connection`. -/
def warnMark : String := "\u00e2\u0161\u00a0\u00ef\u00b8"

/-- The mangled check-mark glyph sequence used by success formatters. -/
def checkMark : String := "\u00e2\u0153\u2026"

/-- The canonical success Envelope `json.dumps` serializes on line 171 of the
source: a dict with `status = "success"` and the formatted `data`. -/
def successEnvelope (d : PyVal) : PyVal :=
  .dict [("status", .str "success"), ("data", d)]

/-- The canonical error Envelope (source lines 178 and 181): a dict with
`status = "error"` and an `error` object holding a single `message` string. -/
def errorEnvelope (msg : String) : PyVal :=
  .dict [("status", .str "error"), ("error", .dict [("message", .str msg)])]

/-- Decides whether a value has one of the two canonical Envelope shapes. -/
def isEnvelope : PyVal → Bool
  | .dict [("status", .str "success"), ("data", _)] => true
  | .dict [("status", .str "error"), ("error", .dict [("message", .str _)])] => true
  | _ => false

/-- Decides whether a value is an error Envelope. -/
def isErrorEnvelope : PyVal → Bool
  | .dict [("status", .str "error"), ("error", .dict [("message", .str _)])] => true
  | _ => false

/-- Extracts the message string of an error Envelope. -/
def envMessage : PyVal → Option String
  | .dict [("status", .str "error"), ("error", .dict [("message", .str m)])] => some m
  | _ => Option.none

/-- Connection state visible to the dispatch layer: the `connected` flag and
whether `self.websocket` holds a handle. -/
structure ConnSt where
  connected : Bool
  wsSome : Bool

/-- The possible outcomes of one `send_command` interaction with the host,
once the connection precondition holds: a reply that parsed as JSON, a reply
`json.loads` rejected (the `JSONDecodeError` is re-raised), a transport
failure on send or receive (re-raised), or any other exception. -/
inductive HostOutcome where
  | response (v : PyVal)
  | malformedReply (excMsg : String)
  | transportFailure (excMsg : String)
  | unexpectedExn (excMsg : String)

/-- The `ConnectionError` message `ensure_godot_connection` raises when
`connect()` returns false (source line 2623). -/
def connectFailMsg : String :=
  "Failed to connect to Godot. Make sure Godot is running with the MCP addon enabled."

/-- Embeds `ensure_godot_connection` (source lines 2618 to 2625): when the
flag is down it invokes `connect()` once; success leaves the connection
established, failure raises `ConnectionError`. -/
def ensureResult (s : ConnSt) (connectOk : Bool) : Except String ConnSt :=
  if s.connected then .ok s
  else if connectOk then .ok ⟨true, true⟩
  else .error connectFailMsg

/-- Embeds the raising behaviour of `GodotConnection.send_command` (source
lines 85 to 111): a `ConnectionError` when the precondition fails, otherwise
the host outcome, with every failure re-raised to the caller. -/
def sendCommandAbs (s : ConnSt) (outcome : HostOutcome) : Except String PyVal :=
  if s.connected && s.wsSome then
    match outcome with
    | .response v => .ok v
    | .malformedReply m => .error m
    | .transportFailure m => .error m
    | .unexpectedExn m => .error m
  else .error "Not connected to Godot"

/-- The sentinel error string special-cased on source line 174. -/
def noSceneSentinel : String := "No scene is currently open"

/-- The friendlier message substituted for the sentinel (source line 175). -/
def noSceneFriendly : String :=
  xMark ++ " " ++ noSceneSentinel ++
    ". Please open a scene in Godot editor first, then try again."

/-- Embeds the response handling of `_execute_command` (source lines 169 to
178): the status check, the success formatting, and the error branch with its
sentinel special case.  Every `.get` and the formatter may raise. -/
def dispatchResponse (v : PyVal) (fmtr : PyVal → Except String PyVal)
    (errPfx : String) : Except String PyVal :=
  match pyGetAttrD v "status" .none with
  | .error m => .error m
  | .ok st =>
    if pyEqStr st "success" then
      match pyGetAttrD v "data" (.dict []) with
      | .error m => .error m
      | .ok d =>
        match fmtr d with
        | .error m => .error m
        | .ok fd => .ok (successEnvelope fd)
    else
      match pyGetAttrD v "error" (.str "Unknown error") with
      | .error m => .error m
      | .ok em =>
        if pyEqStr em noSceneSentinel then
          .ok (errorEnvelope (xMark ++ " " ++ pyStr em ++
            ". Please open a scene in Godot editor first, then try again."))
        else
          .ok (errorEnvelope (xMark ++ " " ++ errPfx ++ ": " ++ pyStr em))

/-- The observable result of one `_execute_command` call: the Envelope
returned, how many `connect()` retry sequences ran, and the command that was
handed to `send_command` (if the flow reached that point). -/
structure ExecResult where
  envelope : PyVal
  connectCalls : Nat
  sentCommand : Option PyVal

/-- Embeds `_execute_command` (source lines 162 to 181).  The `try` body runs
`ensure_godot_connection`, builds the command, calls `send_command` and
shapes the response; the catch-all `except` turns any raised exception into
an error Envelope carrying the operation's error-prefix argument. -/
def executeCommand (ctype : String) (params : PyVal) (s : ConnSt)
    (connectOk : Bool) (outcome : HostOutcome)
    (fmtr : PyVal → Except String PyVal) (errPfx : String) : ExecResult :=
  let connectCalls := if s.connected then 0 else 1
  match ensureResult s connectOk with
  | .error m =>
      ⟨errorEnvelope (xMark ++ " " ++ errPfx ++ ": " ++ m), connectCalls, Option.none⟩
  | .ok eff =>
      let command : PyVal := .dict [("type", .str ctype), ("params", params)]
      match sendCommandAbs eff outcome with
      | .error m =>
          ⟨errorEnvelope (xMark ++ " " ++ errPfx ++ ": " ++ m), connectCalls, some command⟩
      | .ok v =>
          match dispatchResponse v fmtr errPfx with
          | .ok env => ⟨env, connectCalls, some command⟩
          | .error m =>
              ⟨errorEnvelope (xMark ++ " " ++ errPfx ++ ": " ++ m), connectCalls,
                some command⟩

/-- Embeds the `params` dict built by the `create_node` tool (source lines
268 to 274); a missing `shape_properties` argument becomes the empty dict. -/
def createNodeParams (node_type parent_path node_name shape_type : String)
    (shape_properties : Option PyVal) : PyVal :=
  .dict [("node_type", .str node_type), ("parent_path", .str parent_path),
         ("node_name", .str node_name), ("shape_type", .str shape_type),
         ("shape_properties", shape_properties.getD (.dict []))]

/-- Embeds the success-formatter closure of `create_node` (source lines 275
to 281). -/
def createNodeFormatter (node_type shape_type : String) (data : PyVal) :
    Except String PyVal :=
  match pyGetAttrD data "node_path" (.str "Unknown") with
  | .error m => .error m
  | .ok np =>
    match pyGetAttrD data "node_name" (.str node_type) with
    | .error m => .error m
    | .ok nn =>
      let shapeInfo := if shape_type ≠ "" then " with " ++ shape_type else ""
      .ok (.dict [("message", .str (checkMark ++ " Created " ++ node_type ++
        " node \x27" ++ pyStr nn ++ "\x27" ++ shapeInfo ++ " at path: " ++ pyStr np))])

/-- Embeds the `create_node` tool (source lines 211 to 288): builds the
params and delegates to `_execute_command` with the operation's fixed
error-prefix string. -/
def create_node (node_type parent_path node_name shape_type : String)
    (shape_properties : Option PyVal) (s : ConnSt) (connectOk : Bool)
    (outcome : HostOutcome) : ExecResult :=
  executeCommand "create_node"
    (createNodeParams node_type parent_path node_name shape_type shape_properties)
    s connectOk outcome
    (createNodeFormatter node_type shape_type)
    ("Failed to create " ++ node_type ++ " node")

/-- Embeds the body of `check_connection` up to its catch-all handler (source
lines 724 to 744): ensure the connection, exchange `get_debug_info`, and on a
success status reshape the diagnostic data into the flat health report; on a
host-reported error produce the communication-failed Envelope. -/
def checkConnectionBody (host : String) (port : Int) (s : ConnSt)
    (connectOk : Bool) (outcome : HostOutcome) : Except String PyVal :=
  match ensureResult s connectOk with
  | .error m => .error m
  | .ok eff =>
    match sendCommandAbs eff outcome with
    | .error m => .error m
    | .ok response =>
      match pyGetAttrD response "status" .none with
      | .error m => .error m
      | .ok st =>
        if pyEqStr st "success" then
          match pyGetAttrD response "data" (.dict []) with
          | .error m => .error m
          | .ok debug_data =>
            match pyGetAttrD debug_data "server_status" (.dict []) with
            | .error m => .error m
            | .ok server_info =>
              match pyGetAttrD debug_data "godot_version" (.dict []) with
              | .error m => .error m
              | .ok gv =>
                match pyGetAttrD gv "string" (.str "Unknown") with
                | .error m => .error m
                | .ok gvs =>
                  match pyGetAttrD server_info "client_count" (.int 0) with
                  | .error m => .error m
                  | .ok ac =>
                    match pyGetAttrD debug_data "timestamp" (.str "Unknown") with
                    | .error m => .error m
                    | .ok ts =>
                      match pyGetAttrD debug_data "error_log" (.list []) with
                      | .error m => .error m
                      | .ok el =>
                        match pyLenE el with
                        | .error m => .error m
                        | .ok els =>
                          .ok (successEnvelope (.dict [
                            ("status", .str "Healthy"),
                            ("websocket_host", .str host),
                            ("websocket_port", .int port),
                            ("godot_version", gvs),
                            ("active_clients", ac),
                            ("server_uptime", ts),
                            ("error_log_size", .int els)]))
        else
          match pyGetAttrD response "error" (.str "Unknown error") with
          | .error m => .error m
          | .ok em =>
            .ok (errorEnvelope (warnMark ++ " Connected but communication failed: " ++
              pyStr em))

/-- Embeds the `check_connection` tool (source lines 716 to 747): the body
above wrapped in the catch-all handler that turns any raised exception into
the connection-check-failed Envelope. -/
def check_connection (host : String) (port : Int) (s : ConnSt)
    (connectOk : Bool) (outcome : HostOutcome) : PyVal :=
  match checkConnectionBody host port s connectOk outcome with
  | .ok env => env
  | .error m => errorEnvelope (xMark ++ " Connection check failed: " ++ m)

/-- Outcome of one connection attempt inside `connect()` (source lines 56 to
69): the `await` either yields a socket, times out, or raises. -/
inductive AttemptResult where
  | success
  | timeout
  | failure (excMsg : String)

/-- Whether an attempt succeeded. -/
def AttemptResult.isSuccess : AttemptResult → Bool
  | .success => true
  | _ => false

/-- The `GodotConnection` mutable attributes touched by `connect()`: the
`connected` flag, the websocket handle and the `retry_count` counter. -/
structure GCState where
  connected : Bool
  wsSome : Bool
  retryCount : Nat

/-- Observable events of one `connect()` call: the numbered connection
attempts and the `asyncio.sleep(self.config.retry_delay)` pauses. -/
inductive ConnEvent where
  | attempt (idx : Nat)
  | sleep (delay : ℚ)
deriving DecidableEq

/-- Number of attempt events in a trace. -/
def attemptCount (evs : List ConnEvent) : Nat :=
  (evs.filter (fun e => match e with | .attempt _ => true | _ => false)).length

/-- Number of sleep events in a trace. -/
def sleepCount (evs : List ConnEvent) : Nat :=
  (evs.filter (fun e => match e with | .sleep _ => true | _ => false)).length

/-- Embeds the retry loop of `connect()` (source lines 55 to 76), indexed by
the number of loop iterations left and the current attempt index.  Each
iteration consults the oracle `f`; on success it installs the new handle,
raises the flag, zeroes `retry_count` and returns true; on failure it sleeps
for the configured delay unless this was the final attempt. -/
def connectGo (f : Nat → AttemptResult) (delay : ℚ) :
    Nat → Nat → GCState → Bool × GCState × List ConnEvent
  | 0, _, s => (false, s, [])
  | remaining + 1, idx, s =>
    match f idx with
    | .success => (true, ⟨true, true, 0⟩, [.attempt idx])
    | _ =>
      if remaining = 0 then (false, s, [.attempt idx])
      else
        let rest := connectGo f delay remaining (idx + 1) s
        (rest.1, rest.2.1, .attempt idx :: .sleep delay :: rest.2.2)

/-- Embeds `GodotConnection.connect` (source lines 51 to 76): the loop `for
attempt in range(self.config.max_retries + 1)` with the attempt outcomes
given by the oracle `f` and the configured retry delay. -/
def gcConnect (f : Nat → AttemptResult) (delay : ℚ) (maxRetries : Nat)
    (s : GCState) : Bool × GCState × List ConnEvent :=
  connectGo f delay (maxRetries + 1) 0 s

/-- The event trace of `k + 1` consecutive attempts starting at index `lo`,
with one configured-delay sleep between consecutive attempts and none after
the last. -/
def retryTrace (delay : ℚ) : Nat → Nat → List ConnEvent
  | lo, 0 => [.attempt lo]
  | lo, k + 1 => .attempt lo :: .sleep delay :: retryTrace delay (lo + 1) k

/-- Socket handles for the connection-lifecycle state machine: a handle is
live until the peer breaks it or `disconnect` closes it. -/
inductive Handle where
  | alive
  | closed
  | broken
deriving DecidableEq

/-- Whether the current websocket attribute holds a live handle. -/
def handleLive : Option Handle → Bool
  | some .alive => true
  | _ => false

/-- Connection-lifecycle state: the current `self.websocket` attribute, the
handles it previously held (never closed by the code when replaced), and the
`connected` flag. -/
structure SockSt where
  ws : Option Handle
  others : List Handle
  connected : Bool

/-- Number of live socket handles in existence. -/
def liveHandles (s : SockSt) : Nat :=
  (if handleLive s.ws then 1 else 0) +
    (s.others.filter (fun h => h == Handle.alive)).length

/-- The operations of the lifecycle state machine: a `connect()` call that
eventually succeeds, one that exhausts its retries, `disconnect()`, the peer
breaking the live socket, and a `send_command` call. -/
inductive SockOp where
  | connectOk
  | connectFail
  | disconnect
  | peerBreak
  | send

/-- One transition of the lifecycle machine, read off the source:
`connect()` installs a fresh handle and raises the flag on success (line 58
and 62) and changes nothing on failure; `disconnect()` closes the current
handle and lowers the flag, keeping `self.websocket` set (lines 78 to 83);
a peer break turns the live handle broken; `send_command` (lines 85 to 111)
never assigns `self.connected` or `self.websocket` in any branch, so it is
the identity on this state even when it raises a transport error. -/
def sockStep : SockSt → SockOp → SockSt
  | s, .connectOk =>
    { ws := some .alive,
      others := match s.ws with | some h => h :: s.others | Option.none => s.others,
      connected := true }
  | s, .connectFail => s
  | s, .disconnect =>
    match s.ws with
    | some _ => { s with ws := some .closed, connected := false }
    | Option.none => s
  | s, .peerBreak =>
    match s.ws with
    | some .alive => { s with ws := some .broken }
    | _ => s
  | s, .send => s

/-- Runs a sequence of lifecycle operations from a starting state. -/
def sockRun (s : SockSt) (ops : List SockOp) : SockSt :=
  ops.foldl sockStep s

/-- Whether a `send_command` call in this state raises a transport error:
the precondition check passes but the socket is no longer alive, so the send
or receive fails and the exception is re-raised (source lines 109 to 111). -/
def sendTransportError (s : SockSt) : Bool :=
  s.connected &&
    (match s.ws with
     | some h => decide (h ≠ Handle.alive)
     | Option.none => false)

/-- The guarded reachability relation for the lifecycle machine: the initial
state has no handle and a lowered flag (source lines 45 to 49), and
`connect()` is only ever invoked through `ensure_godot_connection`, i.e. in
states where the flag is down (source lines 2618 to 2625); the other
operations can happen at any time. -/
inductive SockReach : SockSt → Prop where
  | init : SockReach ⟨Option.none, [], false⟩
  | connectOk {s} : SockReach s → s.connected = false → SockReach (sockStep s .connectOk)
  | connectFail {s} : SockReach s → s.connected = false → SockReach (sockStep s .connectFail)
  | disconnect {s} : SockReach s → SockReach (sockStep s .disconnect)
  | peerBreak {s} : SockReach s → SockReach (sockStep s .peerBreak)
  | send {s} : SockReach s → SockReach (sockStep s .send)

/-- The connection-state invariant exactly as the claim states it: at most
one live handle, and the `connected` flag agrees with liveness of the
current handle. -/
def c6ClaimInvariant (s : SockSt) : Bool :=
  decide (liveHandles s ≤ 1) && (s.connected == handleLive s.ws)

/-- Events observed by the drain loop's `recv` calls (source lines 113 to
140): a pending frame that parses as JSON, a pending frame `json.loads`
rejects (logged, still discarded, loop continues), a receive timeout, and a
transport error. -/
inductive RecvEvent where
  | msg (v : PyVal)
  | badMsg (excMsg : String)
  | timeout
  | transportError (excMsg : String)

/-- Embeds `_drain_welcome_messages` (source lines 113 to 140) over the
stream of receive outcomes: every pending frame (well-formed or not) is
consumed and discarded; the loop stops at the first timeout, and the outer
handler swallows a transport error, so the call never raises.  Returns the
number of frames discarded and the remaining stream. -/
def drainLoop : List RecvEvent → Nat × List RecvEvent
  | [] => (0, [])
  | .msg _ :: r => let rest := drainLoop r; (rest.1 + 1, rest.2)
  | .badMsg _ :: r => let rest := drainLoop r; (rest.1 + 1, rest.2)
  | .timeout :: r => (0, r)
  | .transportError _ :: r => (0, r)

/-- Embeds one `send_command` call (source lines 85 to 111) at the level of
the receive stream: check the connection precondition, drain pending frames,
send (which may raise), then perform one blocking receive for the reply and
parse it.  A stream on which that blocking receive would never return is
mapped to an error (the theorems only use streams containing the reply).
The returned state equals the input state in every branch, as no branch of
the source assigns `self.connected` or `self.websocket`. -/
def sendCommandRun (s : ConnSt) (events : List RecvEvent)
    (sendErr : Option String) : Except String PyVal × ConnSt :=
  if s.connected && s.wsSome then
    let rem := (drainLoop events).2
    match sendErr with
    | some m => (.error m, s)
    | Option.none =>
      match rem with
      | .msg v :: _ => (.ok v, s)
      | .badMsg m :: _ => (.error m, s)
      | .transportError m :: _ => (.error m, s)
      | _ => (.error "no reply", s)
  else (.error "Not connected to Godot", s)

/-- Whether a host outcome is a response that takes the sentinel error branch
of `_execute_command`: a reply whose status is not the string `"success"` and
whose error field (defaulted) equals the sentinel. -/
def sentinelErrorResponse : HostOutcome → Bool
  | .response (.dict d) =>
    !(pyEqStr ((pyDictGet d "status").getD .none) "success") &&
      pyEqStr ((pyDictGet d "error").getD (.str "Unknown error")) noSceneSentinel
  | _ => false

/-- Whether an optional JSON field is absent or an object (the shapes on
which a chained `.get` cannot raise). -/
def optDictOk : Option PyVal → Bool
  | Option.none => true
  | some (.dict _) => true
  | some _ => false

/-- Whether an optional JSON field is absent or a list (the shapes the claim
intends for the error log). -/
def optListOk : Option PyVal → Bool
  | Option.none => true
  | some (.list _) => true
  | some _ => false

/-- The nested lookup `outer.get(key1, \x7b\x7d).get(key2, dflt)` on a field
that is absent or an object. -/
def nestedGetD (o : Option PyVal) (k : String) (dflt : PyVal) : PyVal :=
  match o with
  | some (.dict g) => (pyDictGet g k).getD dflt
  | _ => dflt

/-- The length of the error-log field, zero when it is absent. -/
def errLogLen : Option PyVal → Int
  | some (.list xs) => xs.length
  | _ => 0


/-- Helper: any envelope a successful `dispatchResponse` yields has one of the
two canonical shapes. -/
theorem dispatchResponse_ok_env {v : PyVal} {fmtr : PyVal → Except String PyVal}
    {pfx : String} {env : PyVal} (h : dispatchResponse v fmtr pfx = .ok env) :
    isEnvelope env = true := by
  unfold dispatchResponse at h
  repeat' split at h
  all_goals first
    | exact Except.noConfusion h
    | (injection h with h2; subst h2; rfl)

/-- Helper: any envelope a successful `checkConnectionBody` yields has one of
the two canonical shapes. -/
theorem checkConnectionBody_ok_env {host : String} {port : Int} {s : ConnSt}
    {cOk : Bool} {outcome : HostOutcome} {env : PyVal}
    (h : checkConnectionBody host port s cOk outcome = .ok env) :
    isEnvelope env = true := by
  unfold checkConnectionBody at h
  repeat' split at h
  all_goals first
    | exact Except.noConfusion h
    | (injection h with h2; subst h2; rfl)

/-- C1.  Envelope totality: for every operation dispatched through
`_execute_command` (any command type, params, connection state, connect
outcome, host outcome and success formatter) and likewise for
`check_connection`, the returned value has the canonical Envelope shape;
the embedding is a total function, reflecting that the catch-all handlers
let no exception escape to the caller.  The returned string is
`json.dumps` of this value, so it parses back to exactly this shape. -/
theorem envelope_totality (ctype host pfx : String) (params : PyVal) (port : Int)
    (s : ConnSt) (cOk : Bool) (outcome : HostOutcome)
    (fmtr : PyVal → Except String PyVal) :
    isEnvelope (executeCommand ctype params s cOk outcome fmtr pfx).envelope = true ∧
    isEnvelope (check_connection host port s cOk outcome) = true := by
  constructor
  · unfold executeCommand
    cases hE : ensureResult s cOk with
    | error m => simp only [hE]; rfl
    | ok eff =>
      simp only [hE]
      cases hS : sendCommandAbs eff outcome with
      | error m => simp only [hS]; rfl
      | ok v =>
        simp only [hS]
        cases hD : dispatchResponse v fmtr pfx with
        | error m => simp only [hD]; rfl
        | ok env => simp only [hD]; exact dispatchResponse_ok_env hD
  · unfold check_connection
    cases hB : checkConnectionBody host port s cOk outcome with
    | error m => simp only [hB]; rfl
    | ok env => simp only [hB]; exact checkConnectionBody_ok_env hB

/-- C3.  Error special-case rewrite: in the error branch of
`_execute_command`, a host error value equal to the sentinel string produces
the friendlier open-a-scene message, and any other error string `e` produces
the generic message built from the operation's fixed error-prefix (the
cross-mark glyph, the prefix, a colon, then the host's error string). -/
theorem error_sentinel_rewrite (ctype pfx e : String) (params : PyVal) (cOk : Bool)
    (fmtr : PyVal → Except String PyVal) (he : e ≠ noSceneSentinel) :
    ((executeCommand ctype params ⟨true, true⟩ cOk
        (.response (.dict [("status", .str "error"), ("error", .str noSceneSentinel)]))
        fmtr pfx).envelope = errorEnvelope noSceneFriendly) ∧
    ((executeCommand ctype params ⟨true, true⟩ cOk
        (.response (.dict [("status", .str "error"), ("error", .str e)]))
        fmtr pfx).envelope = errorEnvelope (xMark ++ " " ++ pfx ++ ": " ++ e)) := by
  constructor
  · rfl
  · have hb : (e == noSceneSentinel) = false := beq_eq_false_iff_ne.mpr he
    simp [executeCommand, ensureResult, sendCommandAbs, dispatchResponse,
      pyGetAttrD, pyDictGet, pyEqStr, pyStr, hb, List.find?]

/-- Witness for C3 at a concrete operation and error string. -/
theorem error_sentinel_rewrite_witness :
    ((executeCommand "create_node" (.dict []) ⟨true, true⟩ true
        (.response (.dict [("status", .str "error"), ("error", .str noSceneSentinel)]))
        (fun d => .ok d) "Failed to create Node2D node").envelope =
      errorEnvelope noSceneFriendly) ∧
    ((executeCommand "create_node" (.dict []) ⟨true, true⟩ true
        (.response (.dict [("status", .str "error"), ("error", .str "Invalid node type")]))
        (fun d => .ok d) "Failed to create Node2D node").envelope =
      errorEnvelope (xMark ++ " " ++ "Failed to create Node2D node" ++ ": " ++
        "Invalid node type")) :=
  error_sentinel_rewrite "create_node" "Failed to create Node2D node"
    "Invalid node type" (.dict []) true (fun d => .ok d) (by decide)

/-- C4 counterexample.  The claimed exact Envelope for the
invalid-node-type scenario is wrong: the code's message additionally starts
with the mangled cross-mark glyph and a space, so the produced Envelope
differs from the claimed one. -/
theorem create_node_error_scenario_counterexample :
    envMessage (create_node "InvalidType" "." "" "" Option.none ⟨true, true⟩ true
      (.response (.dict [("status", .str "error"),
        ("error", .str "Invalid node type")]))).envelope =
      some (xMark ++ " Failed to create InvalidType node: Invalid node type") ∧
    (create_node "InvalidType" "." "" "" Option.none ⟨true, true⟩ true
      (.response (.dict [("status", .str "error"),
        ("error", .str "Invalid node type")]))).envelope ≠
      errorEnvelope "Failed to create InvalidType node: Invalid node type" := by
  refine ⟨rfl, fun hEq => ?_⟩
  have h3 : some (xMark ++ " Failed to create InvalidType node: Invalid node type") =
      some "Failed to create InvalidType node: Invalid node type" := by
    calc some (xMark ++ " Failed to create InvalidType node: Invalid node type") =
        envMessage (create_node "InvalidType" "." "" "" Option.none ⟨true, true⟩ true
          (.response (.dict [("status", .str "error"),
            ("error", .str "Invalid node type")]))).envelope := rfl
      _ = envMessage (errorEnvelope "Failed to create InvalidType node: Invalid node type") :=
        congrArg envMessage hEq
      _ = some "Failed to create InvalidType node: Invalid node type" := rfl
  injection h3 with h4
  exact absurd h4 (by decide)

/-- C4 (amended).  A host reply with status error and error string
"Invalid node type" to a `create_node` call with node type "InvalidType"
yields exactly the error Envelope whose message is the mangled cross-mark
glyph, a space, then "Failed to create InvalidType node: Invalid node
type". -/
theorem create_node_error_scenario :
    (create_node "InvalidType" "." "" "" Option.none ⟨true, true⟩ true
      (.response (.dict [("status", .str "error"),
        ("error", .str "Invalid node type")]))).envelope =
      errorEnvelope (xMark ++ " Failed to create InvalidType node: Invalid node type") :=
  rfl

/-- C9.  Reconnect-on-demand: starting disconnected, one operation call runs
exactly one `connect()` retry sequence; if it fails, no command is handed to
`send_command` and the result is the connection-failure error Envelope built
from the operation's error-prefix; if it succeeds, the built command is
dispatched and the call returns exactly what it returns when the connection
was already up. -/
theorem reconnect_on_demand (ctype pfx : String) (params : PyVal) (ws cOk : Bool)
    (outcome : HostOutcome) (fmtr : PyVal → Except String PyVal) :
    ((executeCommand ctype params ⟨false, ws⟩ cOk outcome fmtr pfx).connectCalls = 1) ∧
    (cOk = false →
      (executeCommand ctype params ⟨false, ws⟩ cOk outcome fmtr pfx).sentCommand =
        Option.none ∧
      (executeCommand ctype params ⟨false, ws⟩ cOk outcome fmtr pfx).envelope =
        errorEnvelope (xMark ++ " " ++ pfx ++ ": " ++ connectFailMsg)) ∧
    (cOk = true →
      (executeCommand ctype params ⟨false, ws⟩ cOk outcome fmtr pfx).sentCommand =
        some (.dict [("type", .str ctype), ("params", params)]) ∧
      (executeCommand ctype params ⟨false, ws⟩ cOk outcome fmtr pfx).envelope =
        (executeCommand ctype params ⟨true, true⟩ cOk outcome fmtr pfx).envelope) := by
  cases cOk with
  | false =>
    refine ⟨rfl, fun _ => ⟨rfl, rfl⟩, fun h => absurd h (by decide)⟩
  | true =>
    cases hS : sendCommandAbs ⟨true, true⟩ outcome with
    | error m =>
      refine ⟨?_, fun h => absurd h (by decide), fun _ => ⟨?_, ?_⟩⟩ <;>
        simp [executeCommand, ensureResult, hS]
    | ok v =>
      cases hD : dispatchResponse v fmtr pfx with
      | error m =>
        refine ⟨?_, fun h => absurd h (by decide), fun _ => ⟨?_, ?_⟩⟩ <;>
          simp [executeCommand, ensureResult, hS, hD]
      | ok env =>
        refine ⟨?_, fun h => absurd h (by decide), fun _ => ⟨?_, ?_⟩⟩ <;>
          simp [executeCommand, ensureResult, hS, hD]

/-- Witness for C9: a disconnected start with a successful connect and a
successful host round trip. -/
theorem reconnect_on_demand_witness :
    ((executeCommand "get_scene_tree" (.dict []) ⟨false, false⟩ true
      (.response (.dict [("status", .str "success"), ("data", .dict [])]))
      (fun d => .ok d) "Failed to get scene tree").connectCalls = 1) ∧
    ((executeCommand "get_scene_tree" (.dict []) ⟨false, false⟩ true
      (.response (.dict [("status", .str "success"), ("data", .dict [])]))
      (fun d => .ok d) "Failed to get scene tree").sentCommand =
      some (.dict [("type", .str "get_scene_tree"), ("params", .dict [])])) ∧
    ((executeCommand "get_scene_tree" (.dict []) ⟨false, false⟩ true
      (.response (.dict [("status", .str "success"), ("data", .dict [])]))
      (fun d => .ok d) "Failed to get scene tree").envelope =
      successEnvelope (.dict [])) := by
  have h := reconnect_on_demand "get_scene_tree" "Failed to get scene tree"
    (.dict []) false true
    (.response (.dict [("status", .str "success"), ("data", .dict [])]))
    (fun d => .ok d)
  exact ⟨h.1, (h.2.2 rfl).1, ((h.2.2 rfl).2).trans rfl⟩

/-- C10.  Any host reply whose status field is not exactly the string
"success" (missing field or any other value) takes the error branch of
`_execute_command` and yields an error Envelope; when the reply has no
error field the message falls back to "Unknown error" after the
operation's error-prefix. -/
theorem non_success_status_is_error (ctype pfx : String) (params : PyVal) (cOk : Bool)
    (fmtr : PyVal → Except String PyVal) (d : List (String × PyVal))
    (hst : pyEqStr ((pyDictGet d "status").getD .none) "success" = false) :
    isErrorEnvelope (executeCommand ctype params ⟨true, true⟩ cOk
      (.response (.dict d)) fmtr pfx).envelope = true ∧
    (pyDictGet d "error" = Option.none →
      (executeCommand ctype params ⟨true, true⟩ cOk
        (.response (.dict d)) fmtr pfx).envelope =
        errorEnvelope (xMark ++ " " ++ pfx ++ ": " ++ "Unknown error")) := by
  constructor
  · cases hb : pyEqStr ((pyDictGet d "error").getD (.str "Unknown error")) noSceneSentinel with
    | true =>
      simp [executeCommand, ensureResult, sendCommandAbs, dispatchResponse,
        pyGetAttrD, hst, hb, isErrorEnvelope, errorEnvelope]
    | false =>
      simp [executeCommand, ensureResult, sendCommandAbs, dispatchResponse,
        pyGetAttrD, hst, hb, isErrorEnvelope, errorEnvelope]
  · intro hE
    have hgd : (pyDictGet d "error").getD (.str "Unknown error") = .str "Unknown error" := by
      rw [hE]; rfl
    have hb : pyEqStr ((pyDictGet d "error").getD (.str "Unknown error")) noSceneSentinel =
        false := by
      rw [hgd]; decide
    have hb2 : pyEqStr (.str "Unknown error") noSceneSentinel = false := by decide
    simp [executeCommand, ensureResult, sendCommandAbs, dispatchResponse,
      pyGetAttrD, hst, hb, hb2, hgd, pyStr]

/-- Witness for C10 at a reply with an unrecognized status and no error
field. -/
theorem non_success_status_is_error_witness :
    isErrorEnvelope (executeCommand "delete_node" (.dict []) ⟨true, true⟩ true
      (.response (.dict [("status", .str "failed")])) (fun x => .ok x)
      "Failed to delete node Player").envelope = true ∧
    ((executeCommand "delete_node" (.dict []) ⟨true, true⟩ true
      (.response (.dict [("status", .str "failed")])) (fun x => .ok x)
      "Failed to delete node Player").envelope =
      errorEnvelope (xMark ++ " " ++ "Failed to delete node Player" ++ ": " ++
        "Unknown error")) := by
  have h := non_success_status_is_error "delete_node" "Failed to delete node Player"
    (.dict []) true (fun x => .ok x) [("status", .str "failed")] (by decide)
  exact ⟨h.1, h.2 rfl⟩

set_option maxRecDepth 8192 in
/-- C5 counterexample.  For the sentinel host error, the error Envelope's
message is the fixed friendlier string, which does not contain the
operation-specific error-prefix anywhere (shown here for the `create_node`
operation on node type Sprite2D, whose prefix is "Failed to create Sprite2D
node"); so not every error Envelope's message carries the operation's
context. -/
theorem error_context_counterexample :
    envMessage (create_node "Sprite2D" "." "" "" Option.none ⟨true, true⟩ true
      (.response (.dict [("status", .str "error"),
        ("error", .str noSceneSentinel)]))).envelope = some noSceneFriendly ∧
    ¬ List.IsInfix "Failed to create Sprite2D node".data noSceneFriendly.data := by
  refine ⟨rfl, by decide⟩

/-- Helper: the message of an error Envelope is its argument. -/
theorem envMessage_errorEnvelope (msg : String) :
    envMessage (errorEnvelope msg) = some msg := rfl

/-- Helper: a message produced by a successful `dispatchResponse` on a
non-sentinel reply starts with the cross-mark glyph and the operation's
error-prefix. -/
theorem dispatchResponse_ok_message {v : PyVal} {fmtr : PyVal → Except String PyVal}
    {pfx : String} {env : PyVal} {m : String}
    (h : dispatchResponse v fmtr pfx = .ok env)
    (hns : sentinelErrorResponse (.response v) = false)
    (hm : envMessage env = some m) :
    ∃ rest, m = xMark ++ " " ++ pfx ++ ": " ++ rest := by
  cases v with
  | dict d =>
    unfold dispatchResponse at h
    simp only [pyGetAttrD] at h
    cases hsucc : pyEqStr ((pyDictGet d "status").getD .none) "success" with
    | true =>
      rw [hsucc] at h
      simp only [if_pos rfl] at h
      cases hF : fmtr ((pyDictGet d "data").getD (.dict [])) with
      | error m0 => rw [hF] at h; exact Except.noConfusion h
      | ok fd =>
        rw [hF] at h
        injection h with h2
        subst h2
        exact Option.noConfusion hm
    | false =>
      rw [hsucc] at h
      simp only [Bool.false_eq_true, if_false] at h
      cases hsent : pyEqStr ((pyDictGet d "error").getD (.str "Unknown error"))
          noSceneSentinel with
      | true =>
        exact absurd hns (by
          simp [sentinelErrorResponse, hsucc, hsent])
      | false =>
        rw [hsent] at h
        simp only [Bool.false_eq_true, if_false] at h
        injection h with h2
        subst h2
        rw [envMessage_errorEnvelope, Option.some.injEq] at hm
        exact ⟨pyStr ((pyDictGet d "error").getD (.str "Unknown error")), hm.symm⟩
  | none => simp [dispatchResponse, pyGetAttrD] at h
  | bool b => simp [dispatchResponse, pyGetAttrD] at h
  | int n => simp [dispatchResponse, pyGetAttrD] at h
  | str s0 => simp [dispatchResponse, pyGetAttrD] at h
  | list xs => simp [dispatchResponse, pyGetAttrD] at h

/-- C5 (amended).  Every error Envelope produced by `_execute_command`, for
every kind of failure except the sentinel host error (whose message is the
fixed friendlier string without the operation context, see the
counterexample), carries a message that starts with the mangled cross-mark
glyph, a space, the operation's fixed error-prefix, and a colon. -/
theorem error_message_has_op_context (ctype pfx : String) (params : PyVal)
    (s : ConnSt) (cOk : Bool) (outcome : HostOutcome)
    (fmtr : PyVal → Except String PyVal) (m : String)
    (hns : sentinelErrorResponse outcome = false)
    (hm : envMessage (executeCommand ctype params s cOk outcome fmtr pfx).envelope =
      some m) :
    ∃ rest, m = xMark ++ " " ++ pfx ++ ": " ++ rest := by
  unfold executeCommand at hm
  cases hE : ensureResult s cOk with
  | error m0 =>
    simp only [hE] at hm
    simp only [envMessage_errorEnvelope, Option.some.injEq] at hm
    exact ⟨m0, hm.symm⟩
  | ok eff =>
    simp only [hE] at hm
    cases hS : sendCommandAbs eff outcome with
    | error m0 =>
      simp only [hS] at hm
      simp only [envMessage_errorEnvelope, Option.some.injEq] at hm
      exact ⟨m0, hm.symm⟩
    | ok v =>
      simp only [hS] at hm
      cases hD : dispatchResponse v fmtr pfx with
      | error m0 =>
        simp only [hD] at hm
        simp only [envMessage_errorEnvelope, Option.some.injEq] at hm
        exact ⟨m0, hm.symm⟩
      | ok env =>
        simp only [hD] at hm
        have hns2 : sentinelErrorResponse (.response v) = false := by
          cases outcome <;> unfold sendCommandAbs at hS <;> split at hS <;>
            first
              | exact Except.noConfusion hS
              | (injection hS with hv; subst hv; exact hns)
        exact dispatchResponse_ok_message hD hns2 hm

/-- Witness for the amended C5 at a concrete transport failure. -/
theorem error_message_has_op_context_witness :
    ∃ rest, (xMark ++ " " ++ "Failed to get scene tree" ++ ": " ++ "Connection closed") =
      xMark ++ " " ++ "Failed to get scene tree" ++ ": " ++ rest :=
  error_message_has_op_context "get_scene_tree" "Failed to get scene tree" (.dict [])
    ⟨true, true⟩ true (.transportFailure "Connection closed") (fun d => .ok d)
    (xMark ++ " " ++ "Failed to get scene tree" ++ ": " ++ "Connection closed")
    rfl rfl

/-- Helper: when every attempt in the window fails, the loop runs all of
them, sleeps between consecutive ones, returns false and leaves the state
untouched. -/
theorem connectGo_all_fail (f : Nat → AttemptResult) (delta : ℚ) :
    ∀ (k lo : Nat) (s : GCState),
      (∀ i, lo ≤ i → i ≤ lo + k → (f i).isSuccess = false) →
      connectGo f delta (k + 1) lo s = (false, s, retryTrace delta lo k) := by
  intro k
  induction k with
  | zero =>
    intro lo s hf
    unfold connectGo
    cases hfl : f lo with
    | success =>
      have h0 := hf lo le_rfl (by omega)
      rw [hfl] at h0
      exact absurd h0 (by simp [AttemptResult.isSuccess])
    | timeout => simp [retryTrace]
    | failure m => simp [retryTrace]
  | succ k ih =>
    intro lo s hf
    unfold connectGo
    cases hfl : f lo with
    | success =>
      have h0 := hf lo le_rfl (by omega)
      rw [hfl] at h0
      exact absurd h0 (by simp [AttemptResult.isSuccess])
    | timeout =>
      have hrest := ih (lo + 1) s (fun i h1 h2 => hf i (by omega) (by omega))
      simp [hrest, retryTrace]
    | failure m =>
      have hrest := ih (lo + 1) s (fun i h1 h2 => hf i (by omega) (by omega))
      simp [hrest, retryTrace]

/-- Helper: when the first success is the attempt at offset `k`, the loop
stops there, installs the connection and returns true. -/
theorem connectGo_first_success (f : Nat → AttemptResult) (delta : ℚ) :
    ∀ (k lo r : Nat) (s : GCState),
      (∀ i, lo ≤ i → i < lo + k → (f i).isSuccess = false) →
      (f (lo + k)).isSuccess = true → k < r →
      connectGo f delta r lo s = (true, ⟨true, true, 0⟩, retryTrace delta lo k) := by
  intro k
  induction k with
  | zero =>
    intro lo r s _ hsucc hr
    cases r with
    | zero => omega
    | succ r0 =>
      unfold connectGo
      rw [Nat.add_zero] at hsucc
      cases hfl : f lo with
      | success => simp [retryTrace]
      | timeout => rw [hfl] at hsucc; exact absurd hsucc (by simp [AttemptResult.isSuccess])
      | failure m => rw [hfl] at hsucc; exact absurd hsucc (by simp [AttemptResult.isSuccess])
  | succ k ih =>
    intro lo r s hf hsucc hr
    cases r with
    | zero => omega
    | succ r0 =>
      unfold connectGo
      cases hfl : f lo with
      | success =>
        have h0 := hf lo le_rfl (by omega)
        rw [hfl] at h0
        exact absurd h0 (by simp [AttemptResult.isSuccess])
      | timeout =>
        have hrest := ih (lo + 1) r0 s (fun i h1 h2 => hf i (by omega) (by omega))
          (by have : lo + 1 + k = lo + (k + 1) := by omega
              rw [this]; exact hsucc)
          (by omega)
        have hr0 : r0 ≠ 0 := by omega
        simp [hr0, hrest, retryTrace]
      | failure m =>
        have hrest := ih (lo + 1) r0 s (fun i h1 h2 => hf i (by omega) (by omega))
          (by have : lo + 1 + k = lo + (k + 1) := by omega
              rw [this]; exact hsucc)
          (by omega)
        have hr0 : r0 ≠ 0 := by omega
        simp [hr0, hrest, retryTrace]

/-- Helper: a retry trace of `k + 1` attempts contains exactly `k + 1`
attempt events. -/
theorem retryTrace_attemptCount (delta : ℚ) :
    ∀ (k lo : Nat), attemptCount (retryTrace delta lo k) = k + 1 := by
  intro k
  induction k with
  | zero => intro lo; rfl
  | succ k ih =>
    intro lo
    simp only [retryTrace, attemptCount] at ih ⊢
    simp [List.filter, ih (lo + 1)]

/-- Helper: a retry trace of `k + 1` attempts contains exactly `k` sleep
events. -/
theorem retryTrace_sleepCount (delta : ℚ) :
    ∀ (k lo : Nat), sleepCount (retryTrace delta lo k) = k := by
  intro k
  induction k with
  | zero => intro lo; rfl
  | succ k ih =>
    intro lo
    simp only [retryTrace, sleepCount] at ih ⊢
    simp [List.filter, ih (lo + 1)]

/-- Helper: a retry trace splits as a prefix followed by its final attempt,
so no sleep follows the last attempt. -/
theorem retryTrace_ends_attempt (delta : ℚ) :
    ∀ (k lo : Nat), ∃ pre, retryTrace delta lo k = pre ++ [ConnEvent.attempt (lo + k)] := by
  intro k
  induction k with
  | zero => intro lo; exact ⟨[], rfl⟩
  | succ k ih =>
    intro lo
    obtain ⟨pre, hp⟩ := ih (lo + 1)
    refine ⟨.attempt lo :: .sleep delta :: pre, ?_⟩
    have harith : lo + 1 + k = lo + (k + 1) := by omega
    rw [harith] at hp
    simp [retryTrace, hp]

/-- Helper: the last event of a retry trace is the final attempt, never a
sleep. -/
theorem retryTrace_getLast (delta : ℚ) :
    ∀ (k lo : Nat), (retryTrace delta lo k).getLast? = some (.attempt (lo + k)) := by
  intro k lo
  obtain ⟨pre, hp⟩ := retryTrace_ends_attempt delta k lo
  rw [hp, List.getLast?_concat]

/-- C2.  Connect-retry bound, for every `max_retries = N` and starting with
the flag down: if every attempt fails, `connect()` makes exactly `N + 1`
attempts with one configured-delay sleep between consecutive attempts and
none after the last, returns false, and leaves the whole state (hence the
`connected` flag) unchanged; if the first success is attempt `k`, it makes
exactly `k + 1` attempts, sets the connection up (flag raised, handle
installed, `retry_count` zeroed) and returns true without further
attempts. -/
theorem connect_retry_bound (f : Nat → AttemptResult) (delta : ℚ) (N : Nat)
    (s : GCState) (hc : s.connected = false) :
    ((∀ i, i ≤ N → (f i).isSuccess = false) →
      gcConnect f delta N s = (false, s, retryTrace delta 0 N) ∧
      ((gcConnect f delta N s).2.1).connected = false ∧
      attemptCount (retryTrace delta 0 N) = N + 1 ∧
      sleepCount (retryTrace delta 0 N) = N ∧
      (retryTrace delta 0 N).getLast? = some (.attempt N)) ∧
    (∀ k, k ≤ N → (f k).isSuccess = true → (∀ i, i < k → (f i).isSuccess = false) →
      gcConnect f delta N s = (true, ⟨true, true, 0⟩, retryTrace delta 0 k) ∧
      attemptCount (retryTrace delta 0 k) = k + 1) := by
  constructor
  · intro hfail
    have h := connectGo_all_fail f delta N 0 s (fun i h1 h2 => hfail i (by omega))
    have hlast := retryTrace_getLast delta N 0
    rw [Nat.zero_add] at hlast
    refine ⟨h, ?_, retryTrace_attemptCount delta N 0, retryTrace_sleepCount delta N 0, hlast⟩
    rw [show gcConnect f delta N s = connectGo f delta (N + 1) 0 s from rfl, h]
    exact hc
  · intro k hk hks hkf
    have h := connectGo_first_success f delta k 0 (N + 1) s
      (fun i h1 h2 => hkf i (by omega))
      (by rw [Nat.zero_add]; exact hks) (by omega)
    exact ⟨h, retryTrace_attemptCount delta k 0⟩

/-- Witness for C2: two retries that all time out, and a run whose second
attempt succeeds. -/
theorem connect_retry_bound_witness :
    (gcConnect (fun _ => .timeout) 2 1 ⟨false, false, 0⟩ =
      (false, ⟨false, false, 0⟩, [.attempt 0, .sleep 2, .attempt 1])) ∧
    (gcConnect (fun i => if i = 1 then .success else .timeout) 2 3 ⟨false, false, 0⟩ =
      (true, ⟨true, true, 0⟩, [.attempt 0, .sleep 2, .attempt 1])) := by
  constructor
  · have h := ((connect_retry_bound (fun _ => .timeout) 2 1 ⟨false, false, 0⟩ rfl).1
      (fun i _ => rfl)).1
    rw [h]; rfl
  · have h := ((connect_retry_bound (fun i => if i = 1 then .success else .timeout)
      2 3 ⟨false, false, 0⟩ rfl).2 1 (by omega) rfl
      (fun i hi => by
        have hi0 : i = 0 := by omega
        subst hi0; rfl)).1
    rw [h]; rfl

/-- Helper: inductive invariant of the guarded lifecycle machine — replaced
handles are never live, and while the flag is down the current handle is not
live. -/
theorem sockReach_inv {s : SockSt} (h : SockReach s) :
    (∀ h0 ∈ s.others, h0 ≠ Handle.alive) ∧
    (s.connected = false → handleLive s.ws = false) := by
  induction h with
  | init => exact ⟨fun h0 hmem => absurd hmem (List.not_mem_nil h0), fun _ => rfl⟩
  | connectOk hr hc ih =>
    rename_i s0
    constructor
    · intro h0 hmem
      simp only [sockStep] at hmem
      cases hw : s0.ws with
      | none => rw [hw] at hmem; exact ih.1 h0 hmem
      | some h1 =>
        rw [hw] at hmem
        cases hmem with
        | head =>
          have hl := ih.2 hc
          rw [hw] at hl
          intro hEq
          rw [hEq] at hl
          exact absurd hl (by simp [handleLive])
        | tail _ hmem2 => exact ih.1 h0 hmem2
    · intro hcon
      simp only [sockStep] at hcon
      exact absurd hcon (by simp)
  | connectFail hr hc ih => exact ih
  | disconnect hr ih =>
    rename_i s0
    cases hw : s0.ws with
    | none => simp only [sockStep, hw]; exact ⟨ih.1, fun hc => hw ▸ ih.2 hc⟩
    | some h1 =>
      simp only [sockStep, hw]
      exact ⟨ih.1, fun _ => rfl⟩
  | peerBreak hr ih =>
    rename_i s0
    cases hw : s0.ws with
    | none => simp only [sockStep, hw]; exact ⟨ih.1, fun hc => hw ▸ ih.2 hc⟩
    | some h1 =>
      cases h1 with
      | alive =>
        simp only [sockStep, hw]
        refine ⟨ih.1, fun hcon => ?_⟩
        have := ih.2 hcon
        rw [hw] at this
        exact absurd this (by simp [handleLive])
      | closed => simp only [sockStep, hw]; exact ⟨ih.1, fun hc => hw ▸ ih.2 hc⟩
      | broken => simp only [sockStep, hw]; exact ⟨ih.1, fun hc => hw ▸ ih.2 hc⟩
  | send hr ih => exact ih

/-- C6 counterexample.  The run connect-succeeds, peer breaks the socket,
`send_command` raises a transport error: afterwards the flag is still true
while the current handle is broken, so the claimed invariant (flag true iff
handle live and not detected broken) is violated — `send_command` never
resets `connected`. -/
theorem connection_state_counterexample :
    (sockRun ⟨Option.none, [], false⟩ [.connectOk, .peerBreak, .send]).connected = true ∧
    (sockRun ⟨Option.none, [], false⟩ [.connectOk, .peerBreak, .send]).ws =
      some Handle.broken ∧
    sendTransportError (sockRun ⟨Option.none, [], false⟩ [.connectOk, .peerBreak, .send]) =
      true ∧
    c6ClaimInvariant (sockRun ⟨Option.none, [], false⟩ [.connectOk, .peerBreak, .send]) =
      false :=
  ⟨rfl, rfl, rfl, rfl⟩

/-- C6 (amended).  In every state reachable when `connect()` is invoked only
while disconnected (as `ensure_godot_connection` does), at most one live
socket handle exists and a lowered flag implies the current handle is not
live; but the flag is only an upper bound on liveness: `send_command` is the
identity on the connection state even when it raises a transport error on a
broken socket, so `connected` can remain true while the handle is broken
(see the counterexample). -/
theorem connection_state_flag (s : SockSt) (h : SockReach s) :
    liveHandles s ≤ 1 ∧
    (s.connected = false → handleLive s.ws = false) ∧
    sockStep s .send = s := by
  have hinv := sockReach_inv h
  refine ⟨?_, hinv.2, rfl⟩
  have hfilter : s.others.filter (fun h0 => h0 == Handle.alive) = [] := by
    rw [List.filter_eq_nil_iff]
    intro h0 hmem
    have := hinv.1 h0 hmem
    simp [this]
  unfold liveHandles
  rw [hfilter]
  cases handleLive s.ws <;> simp

/-- Witness for the amended C6 at the state reached by one successful
connect. -/
theorem connection_state_flag_witness :
    liveHandles ⟨some Handle.alive, [], true⟩ ≤ 1 ∧
    ((⟨some Handle.alive, [], true⟩ : SockSt).connected = false →
      handleLive (⟨some Handle.alive, [], true⟩ : SockSt).ws = false) ∧
    sockStep ⟨some Handle.alive, [], true⟩ .send = ⟨some Handle.alive, [], true⟩ :=
  connection_state_flag _ (SockReach.connectOk SockReach.init rfl)

/-- Helper: draining consumes every queued frame up to the stream's next
non-message event. -/
theorem drainLoop_msgs (msgs : List PyVal) :
    ∀ rest : List RecvEvent,
      drainLoop (msgs.map RecvEvent.msg ++ rest) =
        ((drainLoop rest).1 + msgs.length, (drainLoop rest).2) := by
  induction msgs with
  | nil => intro rest; simp
  | cons v vs ih =>
    intro rest
    simp only [List.map_cons, List.cons_append, drainLoop, List.append_eq]
    rw [ih rest]
    simp only [Prod.mk.injEq, List.length_cons]
    exact ⟨by omega, trivial⟩

/-- C8.  Drain behavior: with nothing pending, the drain consumes nothing;
`send_command` (which runs the drain) never alters the connection state in
any branch; `K` queued frames are all consumed before the loop stops at the
first timeout; a transport error during draining likewise ends the loop
without being propagated (the loop result is returned normally); and after
draining, the reply the host sends to the command is what `send_command`
returns — no pending frame is ever returned as the command's response. -/
theorem drain_pending_behavior :
    (∀ r : List RecvEvent, drainLoop (.timeout :: r) = (0, r)) ∧
    (∀ (s : ConnSt) (evs : List RecvEvent) (sendErr : Option String),
      (sendCommandRun s evs sendErr).2 = s) ∧
    (∀ (msgs : List PyVal) (r : List RecvEvent),
      drainLoop (msgs.map RecvEvent.msg ++ .timeout :: r) = (msgs.length, r)) ∧
    (∀ (msgs : List PyVal) (m : String) (r : List RecvEvent),
      drainLoop (msgs.map RecvEvent.msg ++ .transportError m :: r) = (msgs.length, r)) ∧
    (∀ (s : ConnSt) (pending : List PyVal) (reply : PyVal),
      s.connected = true → s.wsSome = true →
      (sendCommandRun s (pending.map RecvEvent.msg ++ [.timeout, .msg reply])
        Option.none).1 = .ok reply) := by
  refine ⟨fun r => rfl, ?_, ?_, ?_, ?_⟩
  · intro s evs sendErr
    unfold sendCommandRun
    repeat' split
    all_goals try rfl
    all_goals cases hrem : (drainLoop evs).2 with
      | nil => simp [hrem]
      | cons e t => cases e <;> simp [hrem]
  · intro msgs r
    rw [drainLoop_msgs]
    simp [drainLoop]
  · intro msgs m r
    rw [drainLoop_msgs]
    simp [drainLoop]
  · intro s pending reply hc hw
    unfold sendCommandRun
    rw [hc, hw]
    simp only [Bool.and_self, if_pos rfl]
    rw [drainLoop_msgs]
    rfl

/-- Witness for C8: two queued welcome frames are discarded and the host's
reply is returned unchanged. -/
theorem drain_pending_behavior_witness :
    drainLoop ([PyVal.dict [("type", .str "welcome")],
        PyVal.dict [("type", .str "welcome")]].map RecvEvent.msg ++
      [.timeout]) = (2, []) ∧
    (sendCommandRun ⟨true, true⟩
      ([PyVal.dict [("type", .str "welcome")],
        PyVal.dict [("type", .str "welcome")]].map RecvEvent.msg ++
        [.timeout, .msg (.dict [("status", .str "success")])])
      Option.none).1 = .ok (.dict [("status", .str "success")]) := by
  constructor
  · exact drain_pending_behavior.2.2.1
      [PyVal.dict [("type", .str "welcome")], PyVal.dict [("type", .str "welcome")]] []
  · exact drain_pending_behavior.2.2.2.2 ⟨true, true⟩
      [PyVal.dict [("type", .str "welcome")], PyVal.dict [("type", .str "welcome")]]
      (.dict [("status", .str "success")]) rfl rfl

/-- C7 counterexample.  A diagnostic reply with status success whose
`godot_version` field is a plain string (not an object) makes the chained
`.get` raise `AttributeError`, which the catch-all turns into the
connection-check-failed error Envelope — not a success Envelope with a flat
report, although the reply's status was "success". -/
theorem check_connection_counterexample :
    check_connection "localhost" 9080 ⟨true, true⟩ true
      (.response (.dict [("status", .str "success"),
        ("data", .dict [("godot_version", .str "4.5")])])) =
      errorEnvelope (xMark ++ " Connection check failed: " ++
        "\x27str\x27 object has no attribute \x27get\x27") ∧
    isErrorEnvelope (check_connection "localhost" 9080 ⟨true, true⟩ true
      (.response (.dict [("status", .str "success"),
        ("data", .dict [("godot_version", .str "4.5")])]))) = true :=
  ⟨rfl, rfl⟩

/-- Helper: an optional field accepted by `optDictOk` is absent or an
object. -/
theorem optDictOk_cases {o : Option PyVal} (h : optDictOk o = true) :
    o = Option.none ∨ ∃ g, o = some (.dict g) := by
  match o with
  | Option.none => exact Or.inl rfl
  | some (.dict g) => exact Or.inr ⟨g, rfl⟩
  | some (.bool b) => simp [optDictOk] at h
  | some PyVal.none => simp [optDictOk] at h
  | some (.int n) => simp [optDictOk] at h
  | some (.str t) => simp [optDictOk] at h
  | some (.list xs) => simp [optDictOk] at h

/-- Helper: an optional field accepted by `optListOk` is absent or a list. -/
theorem optListOk_cases {o : Option PyVal} (h : optListOk o = true) :
    o = Option.none ∨ ∃ xs, o = some (.list xs) := by
  match o with
  | Option.none => exact Or.inl rfl
  | some (.list xs) => exact Or.inr ⟨xs, rfl⟩
  | some (.bool b) => simp [optListOk] at h
  | some PyVal.none => simp [optListOk] at h
  | some (.int n) => simp [optListOk] at h
  | some (.str t) => simp [optListOk] at h
  | some (.dict g) => simp [optListOk] at h

/-- C7 (amended).  For every diagnostic reply with status success whose
nested `godot_version` and `server_status` fields, when present, are objects
and whose `error_log`, when present, is a list, `check_connection` returns a
success Envelope with the flat health report (configured host and port,
version string defaulted to "Unknown", client count defaulted to 0,
timestamp defaulted to "Unknown", error-log length defaulted to 0); a reply
whose status is not "success" yields the connected-but-communication-failed
error Envelope, while a connection failure raised by
`ensure_godot_connection` yields the connection-check-failed Envelope
(when one of the nested fields has a different shape, the chained `.get`
raises and the catch-all likewise yields the connection-check-failed
Envelope, see the counterexample). -/
theorem check_connection_report (host : String) (port : Int) (cOk : Bool)
    (dd : List (String × PyVal))
    (hgv : optDictOk (pyDictGet dd "godot_version") = true)
    (hss : optDictOk (pyDictGet dd "server_status") = true)
    (hel : optListOk (pyDictGet dd "error_log") = true) :
    (check_connection host port ⟨true, true⟩ cOk
      (.response (.dict [("status", .str "success"), ("data", .dict dd)])) =
      successEnvelope (.dict [
        ("status", .str "Healthy"),
        ("websocket_host", .str host),
        ("websocket_port", .int port),
        ("godot_version", nestedGetD (pyDictGet dd "godot_version") "string" (.str "Unknown")),
        ("active_clients", nestedGetD (pyDictGet dd "server_status") "client_count" (.int 0)),
        ("server_uptime", (pyDictGet dd "timestamp").getD (.str "Unknown")),
        ("error_log_size", .int (errLogLen (pyDictGet dd "error_log")))])) ∧
    (∀ rd : List (String × PyVal),
      pyEqStr ((pyDictGet rd "status").getD .none) "success" = false →
      check_connection host port ⟨true, true⟩ cOk (.response (.dict rd)) =
        errorEnvelope (warnMark ++ " Connected but communication failed: " ++
          pyStr ((pyDictGet rd "error").getD (.str "Unknown error")))) ∧
    (∀ outcome : HostOutcome,
      check_connection host port ⟨false, false⟩ false outcome =
        errorEnvelope (xMark ++ " Connection check failed: " ++ connectFailMsg)) := by
  refine ⟨?_, ?_, fun outcome => rfl⟩
  · have h1 : pyDictGet [("status", PyVal.str "success"), ("data", PyVal.dict dd)]
        "status" = some (.str "success") := rfl
    have h2 : pyDictGet [("status", PyVal.str "success"), ("data", PyVal.dict dd)]
        "data" = some (.dict dd) := rfl
    have h0 : ∀ k, pyDictGet ([] : List (String × PyVal)) k = Option.none :=
      fun k => rfl
    rcases optDictOk_cases hgv with hgvo | ⟨g, hgvo⟩ <;>
      rcases optDictOk_cases hss with hsso | ⟨si, hsso⟩ <;>
      rcases optListOk_cases hel with helo | ⟨el0, helo⟩ <;>
      simp [check_connection, checkConnectionBody, ensureResult, sendCommandAbs,
        pyGetAttrD, pyEqStr, nestedGetD, errLogLen, pyLenE, hgvo, hsso, helo, h0, h1, h2]
  · intro rd hst
    simp [check_connection, checkConnectionBody, ensureResult, sendCommandAbs,
      pyGetAttrD, hst]

/-- Witness for the amended C7 at a fully populated diagnostic reply. -/
theorem check_connection_report_witness :
    check_connection "localhost" 9080 ⟨true, true⟩ true
      (.response (.dict [("status", .str "success"),
        ("data", .dict [
          ("godot_version", .dict [("string", .str "4.5.1")]),
          ("server_status", .dict [("client_count", .int 2)]),
          ("timestamp", .str "2025-01-01T00:00:00"),
          ("error_log", .list [.str "e1", .str "e2", .str "e3"])])])) =
      successEnvelope (.dict [
        ("status", .str "Healthy"),
        ("websocket_host", .str "localhost"),
        ("websocket_port", .int 9080),
        ("godot_version", .str "4.5.1"),
        ("active_clients", .int 2),
        ("server_uptime", .str "2025-01-01T00:00:00"),
        ("error_log_size", .int 3)]) := by
  have h := (check_connection_report "localhost" 9080 true
    [("godot_version", .dict [("string", .str "4.5.1")]),
     ("server_status", .dict [("client_count", .int 2)]),
     ("timestamp", .str "2025-01-01T00:00:00"),
     ("error_log", .list [.str "e1", .str "e2", .str "e3"])] rfl rfl rfl).1
  exact h
